import Mathlib

/-!
Shallow embedding of `src/main.py` of the LeadGen repository.

The program is a FastAPI service with three steps:
* `convert_query_to_google_query` — one call to a text-generation model,
  returning the trimmed model output;
* `fetch_leads` — one HTTP POST to a scraping service, filtering the first
  result set for LinkedIn profile URLs and building one lead dict per match;
* `store_leads` — one database session inserting one row per lead, with
  commit / rollback / close.

External effects (the model call, the HTTP POST, the database) are modelled
by explicit oracles.  JSON documents are modelled by the inductive `Json`
below; Python dict/list primitives (`.get`, truthiness, indexing, iteration,
substring test) are translated one by one.  Python exceptions are modelled
with `Except`; every distinct Python exception class that the code can raise
inside a `try` block is collapsed to a constructor of `PyErr` — the source
catches bare `Exception` and replaces it with one fixed `HTTPException`, so
the constructor choice is not observable.
-/

namespace LeadGen

/-- JSON values, as produced by `response.json()`. -/
inductive Json where
  | null
  | bool (b : Bool)
  | num (n : Int)
  | str (s : String)
  | arr (items : List Json)
  | obj (fields : List (String × Json))
deriving Repr

/-- Python exceptions that can be raised inside the try blocks of the source.
All of them are caught by `except Exception` clauses, which replace them with
a fixed `HTTPException`, so only the fact of failure is observable. -/
inductive PyErr where
  | httpExc (status : Nat) (detail : String)
  | typeError
  | attributeError
  | indexError
  | keyError
deriving Repr, DecidableEq

/-- fastapi.HTTPException, as raised to the framework: status code and detail. -/
structure HTTPExc where
  status : Nat
  detail : String
deriving Repr, DecidableEq

/-- First binding of a key in a Python dict (duplicate keys cannot occur in a
dict built by the json parser or by the source). -/
def jLookup : List (String × Json) → String → Option Json
  | [], _ => none
  | (k, v) :: rest, key => if k == key then some v else jLookup rest key

/-- Python `d.get(key, default)`: `AttributeError` when the receiver is not a
dict. -/
def dictGet (j : Json) (k : String) (d : Json) : Except PyErr Json :=
  match j with
  | .obj fs => .ok ((jLookup fs k).getD d)
  | _ => .error .attributeError

/-- Python `d.get(key)`: missing keys give `None`. -/
def dictGet1 (j : Json) (k : String) : Except PyErr Json :=
  match j with
  | .obj fs => .ok ((jLookup fs k).getD Json.null)
  | _ => .error .attributeError

/-- Python truthiness: `not results` in the source. -/
def Json.falsy : Json → Bool
  | .null => true
  | .bool b => !b
  | .num n => n == 0
  | .str s => s.isEmpty
  | .arr l => l.isEmpty
  | .obj l => l.isEmpty

/-- Python `results[0]`: first element of a list, first character of a string,
integer-key lookup (always missing here) on a dict, `TypeError` otherwise. -/
def Json.index0 : Json → Except PyErr Json
  | .arr [] => .error .indexError
  | .arr (x :: _) => .ok x
  | .str s =>
    match s.data with
    | [] => .error .indexError
    | c :: _ => .ok (.str (String.mk [c]))
  | .obj _ => .error .keyError
  | _ => .error .typeError

/-- Python `for x in v`: lists yield elements, strings yield one-character
strings, dicts yield their keys, other values raise `TypeError`. -/
def Json.toIter : Json → Except PyErr (List Json)
  | .arr l => .ok l
  | .str s => .ok (s.data.map (fun c => Json.str (String.mk [c])))
  | .obj l => .ok (l.map (fun p => Json.str p.1))
  | _ => .error .typeError

/-- Helper for the substring test: `pat` is a prefix of `l`. -/
def prefixChars : List Char → List Char → Bool
  | [], _ => true
  | _ :: _, [] => false
  | a :: as, b :: bs => a == b && prefixChars as bs

/-- Helper for the substring test: `pat` occurs somewhere in `l`. -/
def charsContain (pat : List Char) : List Char → Bool
  | [] => pat.isEmpty
  | b :: bs => prefixChars pat (b :: bs) || charsContain pat bs

/-- Python `pat in s` on strings: substring containment. -/
def strContains (s pat : String) : Bool :=
  charsContain pat.data s.data

/-- Body of the per-item branch of the loop in `fetch_leads`
(src/main.py lines 130-145): read `url` (default `""`), keep the item only
when the url contains `"linkedin.com/in"`, and build the lead dict from
`title` and the `personalInfo` sub-dict. -/
def processItem (item : Json) : Except PyErr (Option Json) :=
  match dictGet item "url" (Json.str "") with
  | .error e => .error e
  | .ok link =>
    match link with
    | .str s =>
      if strContains s "linkedin.com/in" then
        match dictGet item "personalInfo" (Json.obj []) with
        | .error e => .error e
        | .ok pinfo =>
          match dictGet1 item "title" with
          | .error e => .error e
          | .ok name =>
            match dictGet1 pinfo "jobTitle" with
            | .error e => .error e
            | .ok jobTitle =>
              match dictGet1 pinfo "companyName" with
              | .error e => .error e
              | .ok companyName =>
                match dictGet1 pinfo "location" with
                | .error e => .error e
                | .ok location =>
                  .ok (some (Json.obj [
                    ("name", name),
                    ("title", jobTitle),
                    ("email", Json.null),
                    ("organization", Json.obj [("name", companyName)]),
                    ("location", location),
                    ("linkedin_url", Json.str s)]))
      else
        .ok none
    | _ => .error .typeError

/-- The `for item in organic_results` loop of `fetch_leads`, accumulating the
`leads` list in encounter order. -/
def fetchLoop : List Json → Except PyErr (List Json)
  | [] => .ok []
  | item :: rest =>
    match processItem item with
    | .error e => .error e
    | .ok r =>
      match fetchLoop rest with
      | .error e => .error e
      | .ok tail =>
        match r with
        | some l => .ok (l :: tail)
        | none => .ok tail

/-- Try-block body of `fetch_leads` (src/main.py lines 114-147), applied to
the scraping-service response `(status, body)`; the POST itself is modelled
by the `apify` oracle of `Env`.  The body is taken as parsed JSON: a
non-JSON body would make `response.json()` raise, landing in the same
`except` clause as every other error of this block. -/
def fetch_leads_body (status : Nat) (body : Json) : Except PyErr Json :=
  if status != 200 && status != 201 then
    .error (.httpExc 500 "Apify API failed")
  else if body.falsy then
    .ok (Json.arr [])
  else
    match body.index0 with
    | .error e => .error e
    | .ok first =>
      match dictGet first "organicResults" (Json.arr []) with
      | .error e => .error e
      | .ok organic =>
        match organic.toIter with
        | .error e => .error e
        | .ok items =>
          match fetchLoop items with
          | .error e => .error e
          | .ok leads => .ok (Json.arr leads)

/-- `fetch_leads` (src/main.py lines 105-151): the `except Exception` clause
catches every error of the body — including the `HTTPException` raised for a
non-success status, since `HTTPException` is an `Exception` — and raises
`HTTPException(500, "Apify request failed")` instead. -/
def fetch_leads (status : Nat) (body : Json) : Except HTTPExc Json :=
  match fetch_leads_body status body with
  | .ok v => .ok v
  | .error _ => .error ⟨500, "Apify request failed"⟩

/-- One row of the `leads` table, as constructed by `Lead(...)` in
`store_leads`; the `id` primary key is auto-assigned and not modelled. -/
structure LeadRow where
  name : Json
  email : Json
  title : Json
  company : Json
  location : Json
deriving Repr

/-- Row construction in the loop of `store_leads` (src/main.py lines
161-167): the five keyword arguments, evaluated left to right, each a
`.get` chain on the lead dict. -/
def mkRow (lead : Json) : Except PyErr LeadRow :=
  match dictGet1 lead "name" with
  | .error e => .error e
  | .ok name =>
    match dictGet1 lead "email" with
    | .error e => .error e
    | .ok email =>
      match dictGet1 lead "title" with
      | .error e => .error e
      | .ok title =>
        match dictGet lead "organization" (Json.obj []) with
        | .error e => .error e
        | .ok org1 =>
          match dictGet1 org1 "name" with
          | .error e => .error e
          | .ok company =>
            match dictGet lead "organization" (Json.obj []) with
            | .error e => .error e
            | .ok org2 =>
              match dictGet1 org2 "location" with
              | .error e => .error e
              | .ok location => .ok ⟨name, email, title, company, location⟩

/-- The `for lead in leads` loop of `store_leads`: one pending row per lead,
in order; the first failing row construction aborts the loop. -/
def buildRows : List Json → Except PyErr (List LeadRow)
  | [] => .ok []
  | lead :: rest =>
    match mkRow lead with
    | .error e => .error e
    | .ok row =>
      match buildRows rest with
      | .error e => .error e
      | .ok rows => .ok (row :: rows)

/-- State of the database after a `store_leads` call: the committed table
rows, and whether the session was closed. -/
structure DBState where
  committed : List LeadRow
  closed : Bool
deriving Repr

/-- Result of a `store_leads` call: the value returned or exception raised,
together with the final database state. -/
structure StoreOutcome where
  result : Except HTTPExc Unit
  db : DBState
deriving Repr

/-- The fixed `HTTPException(500, "Database error")` of `store_leads`. -/
def dbError : HTTPExc := ⟨500, "Database error"⟩

/-- `store_leads` (src/main.py lines 156-178).  `db = SessionLocal()` opens a
session on the table `table`; the loop adds one pending row per lead
(`insertFails` is the oracle deciding whether the database accepts a row at
commit); `db.commit()` makes all pending rows durable, any error in the try
block triggers `db.rollback()` (no pending row persisted) and
`HTTPException(500, "Database error")`; the `finally` clause closes the
session on both paths. -/
def store_leads (insertFails : LeadRow → Bool) (table : List LeadRow)
    (leads : Json) : StoreOutcome :=
  match leads.toIter with
  | .error _ => { result := .error dbError, db := { committed := table, closed := true } }
  | .ok items =>
    match buildRows items with
    | .error _ => { result := .error dbError, db := { committed := table, closed := true } }
    | .ok rows =>
      if rows.any insertFails then
        { result := .error dbError, db := { committed := table, closed := true } }
      else
        { result := .ok (), db := { committed := table ++ rows, closed := true } }

/-- The f-string prompt of `convert_query_to_google_query` (src/main.py
lines 73-85), with the query interpolated at its placeholder. -/
def promptTemplate (query : String) : String :=
  "\n    Convert this query into a Google search query \n    to find LinkedIn profiles.\n\n    Only return the search query string.\n    No explanation.\n\n    Example:\n    Input: CEO in Mumbai\n    Output: site:linkedin.com/in \"CEO\" \"Mumbai\"\n\n    Query: " ++ query ++ "\n    "

/-- `convert_query_to_google_query` (src/main.py lines 72-100).  The model
call is the oracle `callModel`: `none` means the call raised, `some none`
means it returned with `response.text = None` (then `.strip()` raises
`AttributeError`), `some (some t)` means it returned text `t`.  Both failure
shapes land in the `except` clause, which raises
`HTTPException(500, "Gemini failed")`; on success the trimmed text is
returned. -/
def convert_query_to_google_query (callModel : String → Option (Option String))
    (query : String) : Except HTTPExc String :=
  match callModel (promptTemplate query) with
  | some (some text) => .ok text.trim
  | some none => .error ⟨500, "Gemini failed"⟩
  | none => .error ⟨500, "Gemini failed"⟩

/-- Python `isinstance(leads, list)` on a JSON value. -/
def Json.isArr : Json → Bool
  | .arr _ => true
  | _ => false

/-- Python `len(leads)`; in the endpoint it is only reached on a list. -/
def Json.len : Json → Nat
  | .arr l => l.length
  | _ => 0

/-- Response body of the endpoint: `{"google_query": ..., "leads_found": ...}`. -/
structure RespBody where
  google_query : String
  leads_found : Nat
deriving Repr, DecidableEq

/-- The environment of one request: the outcome of the model call per prompt,
the scraping-service response (status and parsed body) per search query, the
commit-failure oracle per row, and the initial table contents. -/
structure Env where
  gemini : String → Option (Option String)
  apify : String → Nat × Json
  insertFails : LeadRow → Bool
  table : List LeadRow

/-- The `POST /generate-leads` handler `generate_leads` (src/main.py lines
184-200): translate the query, fetch the leads, reject a non-list fetch
result with `HTTPException(500, "Invalid format")`, store the leads, and
answer with the generated query and the number of leads.  A raised
`HTTPException` is modelled as `.error`: FastAPI turns it into a response
with that (non-2xx) status code. -/
def generate_leads (env : Env) (query : String) : Except HTTPExc RespBody :=
  match convert_query_to_google_query env.gemini query with
  | .error e => .error e
  | .ok search_query =>
    match fetch_leads (env.apify search_query).1 (env.apify search_query).2 with
    | .error e => .error e
    | .ok leads =>
      if leads.isArr then
        match (store_leads env.insertFails env.table leads).result with
        | .error e => .error e
        | .ok _ => .ok ⟨search_query, leads.len⟩
      else
        .error ⟨500, "Invalid format"⟩

/-! Spec-side characterizations used in theorem statements. -/

/-- Total variant of `.get(key, default)`, for stating properties of
well-formed items (on a non-dict it returns the default instead of
raising). -/
def objGetD (j : Json) (k : String) (d : Json) : Json :=
  match j with
  | .obj fs => (jLookup fs k).getD d
  | _ => d

/-- Well-formed organic result item: a JSON object whose `url` value, when
present, is a string, and whose `personalInfo` value, when present, is an
object. -/
def wfItem : Json → Bool
  | .obj fs =>
    (match jLookup fs "url" with
     | none => true
     | some (.str _) => true
     | some _ => false) &&
    (match jLookup fs "personalInfo" with
     | none => true
     | some (.obj _) => true
     | some _ => false)
  | _ => false

/-- An item matches when its `url` value (default `""`) is a string
containing the LinkedIn profile path segment. -/
def isMatch (item : Json) : Bool :=
  match objGetD item "url" (Json.str "") with
  | .str s => strContains s "linkedin.com/in"
  | _ => false

/-- The lead dict built for a matching well-formed item, as appended by the
loop of `fetch_leads`. -/
def leadDict (item : Json) : Json :=
  Json.obj [
    ("name", objGetD item "title" Json.null),
    ("title", objGetD (objGetD item "personalInfo" (Json.obj [])) "jobTitle" Json.null),
    ("email", Json.null),
    ("organization", Json.obj [("name",
      objGetD (objGetD item "personalInfo" (Json.obj [])) "companyName" Json.null)]),
    ("location", objGetD (objGetD item "personalInfo" (Json.obj [])) "location" Json.null),
    ("linkedin_url", objGetD item "url" (Json.str ""))]

/-- A lead dict has the shape produced by the loop of `fetch_leads`:
the six fixed keys in order, `email` bound to `null`, `organization` an
object with the single key `name`, and `linkedin_url` a string. -/
def leadShaped (l : Json) : Prop :=
  ∃ name title company location link,
    l = Json.obj [
      ("name", name),
      ("title", title),
      ("email", Json.null),
      ("organization", Json.obj [("name", company)]),
      ("location", location),
      ("linkedin_url", Json.str link)]

/-- Sample matching organic result used in witnesses. -/
def sampleItemMatch : Json :=
  .obj [("url", .str "https://www.linkedin.com/in/jane"), ("title", .str "Jane D"),
    ("personalInfo", .obj [("jobTitle", .str "CEO"), ("companyName", .str "Acme"),
      ("location", .str "Mumbai")])]

/-- Sample non-matching organic result used in witnesses. -/
def sampleItemOther : Json :=
  .obj [("url", .str "https://example.com/x"), ("title", .str "Example")]

/-- Sample scraping-service body used in witnesses. -/
def sampleBody : Json :=
  .arr [.obj [("organicResults", .arr [sampleItemMatch, sampleItemOther])]]

/-- Row built by `store_leads` for the sample matching item. -/
def sampleRow : LeadRow :=
  ⟨.str "Jane D", .null, .str "CEO", .str "Acme", .null⟩

/-! Helper lemmas. -/

theorem strContains_empty : strContains "" "linkedin.com/in" = false := by decide

theorem processItem_wf (item : Json) (hwf : wfItem item = true) :
    processItem item = .ok (if isMatch item then some (leadDict item) else none) := by
  cases item with
  | null => simp [wfItem] at hwf
  | bool b => simp [wfItem] at hwf
  | num n => simp [wfItem] at hwf
  | str s => simp [wfItem] at hwf
  | arr l => simp [wfItem] at hwf
  | obj fs =>
    simp only [wfItem, Bool.and_eq_true] at hwf
    obtain ⟨h1, h2⟩ := hwf
    cases hu : jLookup fs "url" with
    | none =>
      simp [processItem, dictGet, hu, isMatch, objGetD, strContains_empty]
    | some j =>
      rw [hu] at h1
      cases j with
      | str s =>
        cases hm : strContains s "linkedin.com/in" with
        | false =>
          simp [processItem, dictGet, hu, hm, isMatch, objGetD]
        | true =>
          cases hp : jLookup fs "personalInfo" with
          | none =>
            simp [processItem, dictGet, dictGet1, jLookup, hu, hp, hm, isMatch, objGetD,
              leadDict]
          | some k =>
            rw [hp] at h2
            cases k with
            | obj gs =>
              simp [processItem, dictGet, dictGet1, jLookup, hu, hp, hm, isMatch, objGetD,
                leadDict]
            | null => simp at h2
            | bool b => simp at h2
            | num n => simp at h2
            | str t => simp at h2
            | arr l => simp at h2
      | null => simp at h1
      | bool b => simp at h1
      | num n => simp at h1
      | arr l => simp at h1
      | obj gs => simp at h1

theorem fetchLoop_wf (items : List Json) (hwf : ∀ it ∈ items, wfItem it = true) :
    fetchLoop items =
      .ok (items.filterMap (fun it => if isMatch it then some (leadDict it) else none)) := by
  induction items with
  | nil => rfl
  | cons a rest ih =>
    have ha := processItem_wf a (hwf a (by simp))
    have hrest := ih (fun it hit => hwf it (by simp [hit]))
    cases hm : isMatch a <;>
      simp [fetchLoop, ha, hrest, hm, List.filterMap_cons]

theorem filterMap_guard_eq_filter_map {α β : Type} (p : α → Bool) (f : α → β)
    (l : List α) :
    l.filterMap (fun a => if p a then some (f a) else none) = (l.filter p).map f := by
  induction l with
  | nil => rfl
  | cons a rest ih =>
    cases hp : p a <;> simp [List.filterMap_cons, List.filter_cons, hp, ih]

/-- C1: for every scraping-service response whose first result set contains a
list of organic results, of which exactly the matching ones have a url value
containing the segment "linkedin.com/in", `fetch_leads` returns one lead
record per matching result, in encounter order — exactly M records for M
matches. -/
theorem C1_fetch_leads_one_per_match (status : Nat) (fs : List (String × Json))
    (rest items : List Json)
    (hst : status = 200 ∨ status = 201)
    (horg : (jLookup fs "organicResults").getD (Json.arr []) = Json.arr items)
    (hwf : ∀ it ∈ items, wfItem it = true) :
    fetch_leads status (Json.arr (Json.obj fs :: rest)) =
      .ok (Json.arr ((items.filter (fun it => isMatch it)).map leadDict)) ∧
    ((items.filter (fun it => isMatch it)).map leadDict).length =
      (items.filter (fun it => isMatch it)).length := by
  have hcond : (status != 200 && status != 201) = false := by
    rcases hst with rfl | rfl <;> rfl
  have hloop := fetchLoop_wf items hwf
  constructor
  · simp [fetch_leads, fetch_leads_body, hcond, Json.falsy, Json.index0, dictGet, horg,
      Json.toIter, hloop, filterMap_guard_eq_filter_map]
  · simp

/-- Witness for C1 at a concrete response with one matching and one
non-matching organic result. -/
theorem C1_witness :
    fetch_leads 200 sampleBody = .ok (Json.arr [leadDict sampleItemMatch]) :=
  Eq.trans
    ((C1_fetch_leads_one_per_match 200
      [("organicResults", Json.arr [sampleItemMatch, sampleItemOther])] []
      [sampleItemMatch, sampleItemOther] (Or.inl rfl) rfl (by decide)).1)
    (by rfl)

/-- C6: a response status other than 200 and 201 makes `fetch_leads` raise an
HTTPException with a 500 status (the status check raises
`HTTPException(500, "Apify API failed")`; the surrounding `except` clause
replaces it with `HTTPException(500, "Apify request failed")`), so no lead
list — in particular no partial one — is returned. -/
theorem C6_fetch_leads_bad_status (status : Nat) (body : Json)
    (h1 : status ≠ 200) (h2 : status ≠ 201) :
    fetch_leads status body = .error ⟨500, "Apify request failed"⟩ := by
  have hcond : (status != 200 && status != 201) = true := by
    simp [h1, h2]
  unfold fetch_leads fetch_leads_body
  rw [hcond]
  rfl

/-- Witness for C6 at status 404. -/
theorem C6_witness :
    fetch_leads 404 Json.null = .error ⟨500, "Apify request failed"⟩ :=
  C6_fetch_leads_bad_status 404 Json.null (by decide) (by decide)

/-- C7: a successful response whose first result set has an empty (or
missing) organicResults list, and likewise a successful response whose
top-level result array is empty, make `fetch_leads` return the empty list
rather than raise. -/
theorem C7_fetch_leads_empty (status : Nat) (hst : status = 200 ∨ status = 201) :
    (∀ (fs : List (String × Json)) (rest : List Json),
      (jLookup fs "organicResults").getD (Json.arr []) = Json.arr [] →
      fetch_leads status (Json.arr (Json.obj fs :: rest)) = .ok (Json.arr [])) ∧
    fetch_leads status (Json.arr []) = .ok (Json.arr []) := by
  have hcond : (status != 200 && status != 201) = false := by
    rcases hst with rfl | rfl <;> rfl
  constructor
  · intro fs rest horg
    simp [fetch_leads, fetch_leads_body, hcond, Json.falsy, Json.index0, dictGet, horg,
      Json.toIter, fetchLoop]
  · simp [fetch_leads, fetch_leads_body, hcond, Json.falsy]

/-- Witness for C7 at the empty top-level array. -/
theorem C7_witness : fetch_leads 200 (Json.arr []) = .ok (Json.arr []) :=
  (C7_fetch_leads_empty 200 (Or.inl rfl)).2

theorem buildRows_length :
    ∀ {leads : List Json} {rows : List LeadRow},
      buildRows leads = .ok rows → rows.length = leads.length := by
  intro leads
  induction leads with
  | nil =>
    intro rows h
    cases h
    rfl
  | cons a rest ih =>
    intro rows h
    unfold buildRows at h
    cases hm : mkRow a with
    | error e => rw [hm] at h; cases h
    | ok row =>
      rw [hm] at h
      cases hb : buildRows rest with
      | error e => rw [hb] at h; cases h
      | ok tail =>
        rw [hb] at h
        cases h
        simp [ih hb]

/-- C2: `store_leads` on a list of K leads either builds and commits all K
rows (the committed table is extended by exactly K rows), or rolls back —
the committed table is unchanged — and raises
`HTTPException(500, "Database error")`. -/
theorem C2_store_leads_atomic (insertFails : LeadRow → Bool) (table : List LeadRow)
    (leads : List Json) :
    (∃ rows, buildRows leads = .ok rows ∧ rows.length = leads.length ∧
      (store_leads insertFails table (Json.arr leads)).result = .ok () ∧
      (store_leads insertFails table (Json.arr leads)).db.committed = table ++ rows) ∨
    ((store_leads insertFails table (Json.arr leads)).result = .error dbError ∧
      (store_leads insertFails table (Json.arr leads)).db.committed = table) := by
  have hiter : (Json.arr leads).toIter = .ok leads := rfl
  cases hb : buildRows leads with
  | error e =>
    right
    constructor <;> simp [store_leads, hiter, hb]
  | ok rows =>
    cases hf : rows.any insertFails with
    | true =>
      right
      constructor <;> simp [store_leads, hiter, hb, hf]
    | false =>
      left
      exact ⟨rows, rfl, buildRows_length hb,
        by simp [store_leads, hiter, hb, hf],
        by simp [store_leads, hiter, hb, hf]⟩

/-- C8: `store_leads` closes its database session on every exit path: both
after a successful commit and after a rollback. -/
theorem C8_store_leads_closes_session (insertFails : LeadRow → Bool)
    (table : List LeadRow) (leads : Json) :
    (store_leads insertFails table leads).db.closed = true := by
  unfold store_leads
  split
  · rfl
  · split
    · rfl
    · split <;> rfl

/-- C5: `convert_query_to_google_query` invokes the model exactly at the
fixed prompt template with the query interpolated — its result depends only
on the model output at that prompt — and, when the call returns text, it
returns that text trimmed and otherwise unmodified. -/
theorem C5_translator_trims_model_output
    (callModel : String → Option (Option String)) (query text : String)
    (h : callModel (promptTemplate query) = some (some text)) :
    convert_query_to_google_query callModel query = .ok text.trim ∧
    ∀ g : String → Option (Option String),
      g (promptTemplate query) = callModel (promptTemplate query) →
      convert_query_to_google_query g query =
        convert_query_to_google_query callModel query := by
  constructor
  · simp [convert_query_to_google_query, h]
  · intro g hg
    unfold convert_query_to_google_query
    rw [hg]

/-- Witness for C5 at a constant model returning padded text. -/
theorem C5_witness :
    convert_query_to_google_query (fun _ => some (some "  site:linkedin.com/in x  "))
      "CEO in Mumbai" = .ok "  site:linkedin.com/in x  ".trim :=
  (C5_translator_trims_model_output (fun _ => some (some "  site:linkedin.com/in x  "))
    "CEO in Mumbai" "  site:linkedin.com/in x  " rfl).1

theorem processItem_shaped {item l : Json} (h : processItem item = .ok (some l)) :
    leadShaped l := by
  unfold processItem at h
  iterate 14 (all_goals (try split at h))
  all_goals (try cases h)
  all_goals exact ⟨_, _, _, _, _, rfl⟩

theorem fetchLoop_shaped :
    ∀ {items leads : List Json}, fetchLoop items = .ok leads →
      ∀ l ∈ leads, leadShaped l := by
  intro items
  induction items with
  | nil =>
    intro leads h l hl
    cases h
    cases hl
  | cons a rest ih =>
    intro leads h l hl
    unfold fetchLoop at h
    cases hp : processItem a with
    | error e => rw [hp] at h; cases h
    | ok r =>
      rw [hp] at h
      cases hr : fetchLoop rest with
      | error e => rw [hr] at h; cases h
      | ok tail =>
        rw [hr] at h
        cases r with
        | some x =>
          cases h
          rcases List.mem_cons.mp hl with rfl | hmem
          · exact processItem_shaped hp
          · exact ih hr l hmem
        | none =>
          cases h
          exact ih hr l hl

theorem fetch_leads_body_shaped {status : Nat} {body v : Json}
    (h : fetch_leads_body status body = .ok v) :
    ∃ leads, v = Json.arr leads ∧ ∀ l ∈ leads, leadShaped l := by
  unfold fetch_leads_body at h
  iterate 14 (all_goals (try split at h))
  all_goals (try cases h)
  all_goals first
    | exact ⟨[], rfl, fun l hl => absurd hl (List.not_mem_nil l)⟩
    | (rename_i leads heq
       exact ⟨leads, rfl, fetchLoop_shaped heq⟩)

theorem fetch_leads_ok_shaped {status : Nat} {body v : Json}
    (h : fetch_leads status body = .ok v) :
    ∃ leads, v = Json.arr leads ∧ ∀ l ∈ leads, leadShaped l := by
  unfold fetch_leads at h
  cases hb : fetch_leads_body status body with
  | error e => rw [hb] at h; cases h
  | ok w =>
    rw [hb] at h
    cases h
    exact fetch_leads_body_shaped hb

/-- C3: every lead dict produced by `fetch_leads` binds `organization` to an
object with the single key `name` (no `location` key) and carries the
scraped location under a top-level `location` key; since `store_leads` reads
the location column from `organization.location`, every row it builds from
such a lead has a null location column, and the top-level location value is
never persisted. -/
theorem C3_location_column_null (status : Nat) (body : Json) (leads : List Json)
    (h : fetch_leads status body = .ok (Json.arr leads)) :
    ∀ l ∈ leads,
      (∃ fs, l = Json.obj fs ∧
        (∃ c, jLookup fs "organization" = some (Json.obj [("name", c)])) ∧
        ∃ loc, jLookup fs "location" = some loc) ∧
      ∀ row, mkRow l = .ok row → row.location = Json.null := by
  intro l hl
  obtain ⟨leads2, heq, hsh⟩ := fetch_leads_ok_shaped h
  injection heq with heq2
  subst heq2
  obtain ⟨name, title, c, loc, lk, rfl⟩ := hsh l hl
  refine ⟨⟨_, rfl, ⟨c, rfl⟩, ⟨loc, rfl⟩⟩, ?_⟩
  intro row hrow
  have hmk : mkRow (Json.obj [("name", name), ("title", title), ("email", Json.null),
      ("organization", Json.obj [("name", c)]), ("location", loc),
      ("linkedin_url", Json.str lk)]) =
      .ok ⟨name, Json.null, title, c, Json.null⟩ := rfl
  rw [hmk] at hrow
  obtain rfl := Except.ok.inj hrow
  rfl

/-- Witness for C3 at the sample response: the row stored for the sample
matching item has a null location column. -/
theorem C3_witness : sampleRow.location = Json.null :=
  (C3_location_column_null 200 sampleBody [leadDict sampleItemMatch] rfl
    (leadDict sampleItemMatch) (List.mem_singleton.mpr rfl)).2 sampleRow rfl

/-- C9: every lead dict produced by `fetch_leads` binds `email` to null (the
fetcher hardcodes it), so every row `store_leads` builds from such a lead
has a null email column. -/
theorem C9_email_always_null (status : Nat) (body : Json) (leads : List Json)
    (h : fetch_leads status body = .ok (Json.arr leads)) :
    ∀ l ∈ leads,
      (∃ fs, l = Json.obj fs ∧ jLookup fs "email" = some Json.null) ∧
      ∀ row, mkRow l = .ok row → row.email = Json.null := by
  intro l hl
  obtain ⟨leads2, heq, hsh⟩ := fetch_leads_ok_shaped h
  injection heq with heq2
  subst heq2
  obtain ⟨name, title, c, loc, lk, rfl⟩ := hsh l hl
  refine ⟨⟨_, rfl, rfl⟩, ?_⟩
  intro row hrow
  have hmk : mkRow (Json.obj [("name", name), ("title", title), ("email", Json.null),
      ("organization", Json.obj [("name", c)]), ("location", loc),
      ("linkedin_url", Json.str lk)]) =
      .ok ⟨name, Json.null, title, c, Json.null⟩ := rfl
  rw [hmk] at hrow
  obtain rfl := Except.ok.inj hrow
  rfl

/-- Witness for C9 at the sample response: the row stored for the sample
matching item has a null email column. -/
theorem C9_witness : sampleRow.email = Json.null :=
  (C9_email_always_null 200 sampleBody [leadDict sampleItemMatch] rfl
    (leadDict sampleItemMatch) (List.mem_singleton.mpr rfl)).2 sampleRow rfl

theorem convert_error {f : String → Option (Option String)} {q : String} {e : HTTPExc}
    (h : convert_query_to_google_query f q = .error e) : e = ⟨500, "Gemini failed"⟩ := by
  unfold convert_query_to_google_query at h
  split at h
  · cases h
  · cases h; rfl
  · cases h; rfl

theorem fetch_error {s : Nat} {b : Json} {e : HTTPExc}
    (h : fetch_leads s b = .error e) : e = ⟨500, "Apify request failed"⟩ := by
  unfold fetch_leads at h
  split at h
  · cases h
  · cases h; rfl

theorem store_error {i : LeadRow → Bool} {t : List LeadRow} {l : Json} {e : HTTPExc}
    (h : (store_leads i t l).result = .error e) : e = dbError := by
  unfold store_leads at h
  iterate 6 (all_goals (try split at h))
  all_goals (try cases h)
  all_goals rfl

/-- C4: the endpoint returns `.ok` exactly when the translator, the fetcher
and the store all succeed, and then the body carries the translator output
as `google_query` and the length of the fetched lead list as `leads_found`;
every failing request yields a raised HTTPException, and all of them carry
the non-2xx status 500. -/
theorem C4_endpoint_response (env : Env) (query : String) :
    (∀ r : RespBody, generate_leads env query = .ok r ↔
      ∃ gq leads, convert_query_to_google_query env.gemini query = .ok gq ∧
        fetch_leads (env.apify gq).1 (env.apify gq).2 = .ok (Json.arr leads) ∧
        (store_leads env.insertFails env.table (Json.arr leads)).result = .ok () ∧
        r = ⟨gq, leads.length⟩) ∧
    ∀ e : HTTPExc, generate_leads env query = .error e → e.status = 500 := by
  cases hc : convert_query_to_google_query env.gemini query with
  | error e0 =>
    have hgen : generate_leads env query = .error e0 := by
      unfold generate_leads
      rw [hc]
    constructor
    · intro r
      constructor
      · intro h
        rw [hgen] at h
        cases h
      · rintro ⟨gq, leads, hgq, -, -, -⟩
        cases hgq
    · intro e he
      rw [hgen] at he
      cases he
      rw [convert_error hc]
  | ok sq =>
    cases hf : fetch_leads (env.apify sq).1 (env.apify sq).2 with
    | error e1 =>
      have hgen : generate_leads env query = .error e1 := by
        unfold generate_leads
        rw [hc]
        simp only []
        rw [hf]
      constructor
      · intro r
        constructor
        · intro h
          rw [hgen] at h
          cases h
        · rintro ⟨gq, leads, hgq, hfl, -, -⟩
          cases hgq
          rw [hf] at hfl
          cases hfl
      · intro e he
        rw [hgen] at he
        cases he
        rw [fetch_error hf]
    | ok j =>
      obtain ⟨larr, rfl, -⟩ := fetch_leads_ok_shaped hf
      cases hs : (store_leads env.insertFails env.table (Json.arr larr)).result with
      | error e2 =>
        have hgen : generate_leads env query = .error e2 := by
          unfold generate_leads
          rw [hc]
          simp only []
          rw [hf]
          simp [Json.isArr, hs]
        constructor
        · intro r
          constructor
          · intro h
            rw [hgen] at h
            cases h
          · rintro ⟨gq, leads, hgq, hfl, hst, -⟩
            cases hgq
            rw [hf] at hfl
            injection hfl with h2
            injection h2 with h3
            subst h3
            rw [hs] at hst
            cases hst
        · intro e he
          rw [hgen] at he
          cases he
          rw [store_error hs]
          rfl
      | ok u =>
        cases u
        have hgen : generate_leads env query = .ok ⟨sq, larr.length⟩ := by
          unfold generate_leads
          rw [hc]
          simp only []
          rw [hf]
          simp [Json.isArr, hs, Json.len]
        constructor
        · intro r
          constructor
          · intro h
            rw [hgen] at h
            cases h
            exact ⟨sq, larr, rfl, hf, hs, rfl⟩
          · rintro ⟨gq, leads, hgq, hfl, -, hr⟩
            cases hgq
            rw [hf] at hfl
            injection hfl with h2
            injection h2 with h3
            subst h3
            rw [hgen, hr]
        · intro e he
          rw [hgen] at he
          cases he

/-- Witness for C4: an environment in which all three steps succeed on the
sample data yields the expected response body. -/
theorem C4_witness :
    generate_leads
      { gemini := fun _ => some (some "site:linkedin.com/in q"),
        apify := fun _ => (200, sampleBody),
        insertFails := fun _ => false,
        table := [] } "CEO in Mumbai" =
      .ok ⟨"site:linkedin.com/in q".trim, 1⟩ :=
  ((C4_endpoint_response
      { gemini := fun _ => some (some "site:linkedin.com/in q"),
        apify := fun _ => (200, sampleBody),
        insertFails := fun _ => false,
        table := [] } "CEO in Mumbai").1 _).mpr
    ⟨"site:linkedin.com/in q".trim, [leadDict sampleItemMatch], rfl, rfl, rfl, rfl⟩

/-- C10: `fetch_leads` either raises or returns a list, so the non-list
check of the endpoint never fires: no request can produce the
`HTTPException(500, "Invalid format")` of the unreachable branch. -/
theorem C10_invalid_format_unreachable :
    (∀ (status : Nat) (body : Json) (j : Json),
      fetch_leads status body = .ok j → j.isArr = true) ∧
    ∀ (env : Env) (query : String),
      generate_leads env query ≠ .error ⟨500, "Invalid format"⟩ := by
  have harr : ∀ (status : Nat) (body : Json) (j : Json),
      fetch_leads status body = .ok j → j.isArr = true := by
    intro s b j h
    obtain ⟨l, rfl, -⟩ := fetch_leads_ok_shaped h
    rfl
  refine ⟨harr, ?_⟩
  intro env query hcontra
  cases hc : convert_query_to_google_query env.gemini query with
  | error e0 =>
    have hgen : generate_leads env query = .error e0 := by
      unfold generate_leads
      rw [hc]
    rw [hgen] at hcontra
    injection hcontra with h1
    rw [convert_error hc] at h1
    exact absurd h1 (by decide)
  | ok sq =>
    cases hf : fetch_leads (env.apify sq).1 (env.apify sq).2 with
    | error e1 =>
      have hgen : generate_leads env query = .error e1 := by
        unfold generate_leads
        rw [hc]
        simp only []
        rw [hf]
      rw [hgen] at hcontra
      injection hcontra with h1
      rw [fetch_error hf] at h1
      exact absurd h1 (by decide)
    | ok j =>
      obtain ⟨larr, rfl, -⟩ := fetch_leads_ok_shaped hf
      cases hs : (store_leads env.insertFails env.table (Json.arr larr)).result with
      | error e2 =>
        have hgen : generate_leads env query = .error e2 := by
          unfold generate_leads
          rw [hc]
          simp only []
          rw [hf]
          simp [Json.isArr, hs]
        rw [hgen] at hcontra
        injection hcontra with h1
        rw [store_error hs] at h1
        exact absurd h1 (by decide)
      | ok u =>
        cases u
        have hgen : generate_leads env query = .ok ⟨sq, larr.length⟩ := by
          unfold generate_leads
          rw [hc]
          simp only []
          rw [hf]
          simp [Json.isArr, hs, Json.len]
        rw [hgen] at hcontra
        cases hcontra

/-- Witness for C10 at a concrete successful fetch. -/
theorem C10_witness : (Json.arr []).isArr = true :=
  C10_invalid_format_unreachable.1 200 (Json.arr []) (Json.arr []) rfl

end LeadGen
